import Mathlib

/-
  A shallow embedding of the robot control program in src/Robot.py.

  Modelling conventions:
  - Machine numbers: Python floats are modelled as rationals; sensor, gyro
    and motor-encoder readings (integers on the hardware) as integers;
    timer values in milliseconds as naturals.
  - Effects: each operation of the Robot class is embedded as a function
    producing the list of motor commands it issues, in order.  A command is
    a run, a stop (with a brake mode) or an encoder reset, tagged with the
    motor it targets.
  - The environment is a family of streams indexed by a tick counter: tick t
    supplies the gyro angle, right-motor encoder angle, per-operation timer
    value and the two light-sensor intensity sums read during the t-th loop
    iteration.  One loop iteration performs all of its reads at one tick.
  - Loops: every while loop is run with explicit fuel through the generic
    combinator loopRun, which reports the commands emitted, the exit tick
    (none when the fuel ran out with the condition still holding, i.e. the
    loop is still running) and the final loop state.
  - The math-library sine used in the speed ramp of drive is an external
    pure function and is passed in as a parameter sinF.
-/

namespace FLL

/-- The four motors owned by the Robot (ports D, A, C, B). -/
inductive MotorId
  | front
  | rear
  | left
  | right
deriving DecidableEq

/-- Brake modes of Motor.stop: Stop.BRAKE, Stop.COAST, Stop.HOLD. -/
inductive Brake
  | brake
  | coast
  | hold
deriving DecidableEq

/-- A single motor command issued by the program. -/
inductive Cmd
  | run (m : MotorId) (speed : ℚ)
  | stopM (m : MotorId) (b : Brake)
  | resetAngle (m : MotorId) (v : ℚ)
deriving DecidableEq

/-- The motor a command targets. -/
def cmdMotor : Cmd → MotorId
  | .run m _ => m
  | .stopM m _ => m
  | .resetAngle m _ => m

/-- math.copysign: the magnitude of the first argument with the sign of the
second (rationals have no negative zero, so sign of 0 is positive). -/
def copysign (mag x : ℚ) : ℚ := if x < 0 then -|mag| else |mag|

/-- LightSensor thresholds (class LightSensor, fields black/white/line). -/
structure LightSensor where
  black : ℚ
  white : ℚ
  line : ℚ
deriving DecidableEq

/-- LightSensor.__init__(port, low, high): derives the three thresholds
from the calibration bounds. -/
def LightSensor.init (low high : ℚ) : LightSensor :=
  { black := low + (high - low) * 0.25
    white := low + (high - low) * 0.8
    line := low + (high - low) * 0.5 }

/-- LightSensor.isWhite, applied to a light() reading (the sum of the three
rgb channels, modelled as the supplied integer). -/
def LightSensor.isWhite (s : LightSensor) (lightVal : ℤ) : Bool :=
  decide ((lightVal : ℚ) ≥ s.white)

/-- LightSensor.isBlack, applied to a light() reading. -/
def LightSensor.isBlack (s : LightSensor) (lightVal : ℤ) : Bool :=
  decide ((lightVal : ℚ) ≤ s.black)

/-- LightSensor.waitForWhite: polls the stream of light() readings from
tick t until isWhite holds; returns the tick at which it returns, or none
when the fuel is exhausted with the condition never met (still blocked). -/
def LightSensor.waitForWhite (s : LightSensor) (lights : ℕ → ℤ) : ℕ → ℕ → Option ℕ
  | _t, 0 => none
  | t, fuel + 1 =>
    if s.isWhite (lights t) then some t else s.waitForWhite lights (t + 1) fuel

/-- LightSensor.waitForBlack: polls until isBlack holds. -/
def LightSensor.waitForBlack (s : LightSensor) (lights : ℕ → ℤ) : ℕ → ℕ → Option ℕ
  | _t, 0 => none
  | t, fuel + 1 =>
    if s.isBlack (lights t) then some t else s.waitForBlack lights (t + 1) fuel

/-- LightSensor.waitForLine: waitForWhite then waitForBlack. -/
def LightSensor.waitForLine (s : LightSensor) (lights : ℕ → ℤ) (t0 fuel : ℕ) : Option ℕ :=
  match s.waitForWhite lights t0 fuel with
  | none => none
  | some t1 => s.waitForBlack lights t1 fuel

/-- The sensor environment of one operation: per-tick readings of the gyro,
the right drive motor encoder (after its reset), the operation's stopwatch
in milliseconds, and the two light sensors' light() sums. -/
structure Env where
  gyro : ℕ → ℤ
  motorDeg : ℕ → ℤ
  clock : ℕ → ℕ
  leftLight : ℕ → ℤ
  rightLight : ℕ → ℤ

/-- The Robot state the motion operations read: its two calibrated light
sensors (the four motors and the gyro are external collaborators reached
through Env and the command trace). -/
structure Robot where
  leftSensor : LightSensor
  rightSensor : LightSensor

/-- Robot.__init__ sensor defaults when no sensorpoints record exists:
LightSensor(S3, 10, 105) and LightSensor(S2, 20, 160). -/
def defaultRobot : Robot :=
  { leftSensor := LightSensor.init 10 105
    rightSensor := LightSensor.init 20 160 }

/-- Generic while loop with fuel: cond is checked at each tick, the body
emits commands and updates the loop state, the tick advances by one per
iteration.  Returns (commands, exit tick if the loop exited, final state). -/
def loopRun {σ : Type} (cond : ℕ → Bool) (body : ℕ → σ → List Cmd × σ) :
    ℕ → σ → ℕ → List Cmd × Option ℕ × σ
  | _t, s, 0 => ([], none, s)
  | t, s, fuel + 1 =>
    if cond t then
      let bs := body t s
      let r := loopRun cond body (t + 1) bs.2 fuel
      (bs.1 ++ r.1, r.2.1, r.2.2)
    else ([], some t, s)

/-- The ticks whose loop iterations execute: the longest run of consecutive
ticks from t on which cond holds, cut off by the fuel. -/
def execTicks (cond : ℕ → Bool) : ℕ → ℕ → List ℕ
  | _t, 0 => []
  | t, fuel + 1 => if cond t then t :: execTicks cond (t + 1) fuel else []

/-- Robot.stop(brakeType): stops the right then the left drive motor. -/
def Robot.stop (bt : Brake) : List Cmd :=
  [.stopM .right bt, .stopM .left bt]

/-- Robot.moveSteering, left wheel: speed * min(1, 0.02*steering + 1). -/
def leftMotorSpeed (steering speed : ℚ) : ℚ :=
  speed * min 1 (0.02 * steering + 1)

/-- Robot.moveSteering, right wheel: speed * min(1, -0.02*steering + 1). -/
def rightMotorSpeed (steering speed : ℚ) : ℚ :=
  speed * min 1 (-0.02 * steering + 1)

/-- Robot.moveSteering: runs the left then the right drive motor at the two
derived wheel speeds. -/
def Robot.moveSteering (steering speed : ℚ) : List Cmd :=
  [.run .left (leftMotorSpeed steering speed), .run .right (rightMotorSpeed steering speed)]

/-- The four running bounds tracked by Robot.calibrate. -/
structure CalibSt where
  rightHigh : ℤ
  rightLow : ℤ
  leftHigh : ℤ
  leftLow : ℤ
deriving DecidableEq

/-- Loop condition of Robot.calibrate: timer.time() < 5000. -/
def calibCond (env : Env) (t : ℕ) : Bool := decide (env.clock t < 5000)

/-- Loop body of Robot.calibrate: four independent conditional updates (each
of the source's if statements reads and writes only its own variable, so the
sequential ifs equal this simultaneous record). No motor command is issued. -/
def calibBody (env : Env) (t : ℕ) (s : CalibSt) : List Cmd × CalibSt :=
  ([],
    { rightHigh := if env.rightLight t > s.rightHigh then env.rightLight t else s.rightHigh
      rightLow := if env.rightLight t < s.rightLow then env.rightLight t else s.rightLow
      leftHigh := if env.leftLight t > s.leftHigh then env.leftLight t else s.leftHigh
      leftLow := if env.leftLight t < s.leftLow then env.leftLight t else s.leftLow })

/-- Robot.calibrate: seeds (rightHigh, rightLow, leftHigh, leftLow) with
(40, 70, 40, 70), drives straight with moveSteering(0, 125), runs the
min/max tracking loop for 5000 ms, then stops; the final CalibSt is the
record persisted to the sensorpoints file. -/
def Robot.calibrate (env : Env) (fuel : ℕ) : List Cmd × Option ℕ × CalibSt :=
  let r := loopRun (calibCond env) (calibBody env) 0 ⟨40, 70, 40, 70⟩ fuel
  (Robot.moveSteering 0 125 ++ r.1 ++
      (match r.2.1 with
       | some _ => Robot.stop .hold
       | none => []),
    r.2.1, r.2.2)

/-- Loop condition of Robot.drive:
abs(rightMotor.angle()) < abs(rotation) and timer.time() < time*1000. -/
def driveCond (env : Env) (rotation : ℚ) (time : ℕ) (t : ℕ) : Bool :=
  decide (|(env.motorDeg t : ℚ)| < |rotation|) && decide (env.clock t < time * 1000)

/-- Loop body of Robot.drive: gyro steering correction and sinusoidal speed
ramp, issued through moveSteering. -/
def driveBody (sinF : ℚ → ℚ) (env : Env) (startDegrees : ℤ) (rotation speed kSteering : ℚ)
    (t : ℕ) (_s : Unit) : List Cmd × Unit :=
  let currentDegrees := env.gyro t
  let errorGyro : ℚ := ((currentDegrees - startDegrees : ℤ) : ℚ)
  let rampSpeed := min (sinF (|(env.motorDeg t : ℚ)| / rotation * 3.14)) (|speed| - 100)
  (Robot.moveSteering (errorGyro * kSteering * copysign 1 speed)
    (rampSpeed * speed + copysign 100 speed), ())

/-- Robot.drive(distance, speed, time, kSteering): records the start gyro
angle, flips distance and speed when distance < 0, derives the rotation
target distance*51.9, resets the right motor encoder, runs the loop, and
stops with HOLD when the loop exits.  Returns the command trace and the
loop exit tick. -/
def Robot.drive (sinF : ℚ → ℚ) (env : Env) (distance speed : ℚ) (time : ℕ) (kSteering : ℚ)
    (fuel : ℕ) : List Cmd × Option ℕ :=
  let startDegrees := env.gyro 0
  let d2 := if distance < 0 then |distance| else distance
  let s2 := if distance < 0 then -speed else speed
  let rotation := d2 * 51.9
  let r := loopRun (driveCond env rotation time) (driveBody sinF env startDegrees rotation s2 kSteering)
    0 () fuel
  (Cmd.resetAngle .right 0 :: r.1 ++
      (match r.2.1 with
       | some _ => Robot.stop .hold
       | none => []),
    r.2.1)

/-- Loop condition of Robot.turn:
abs(gyro.angle() - angle) > 0 and timer.time() < time*1000. -/
def turnCond (env : Env) (angle : ℤ) (time : ℕ) (t : ℕ) : Bool :=
  decide (|env.gyro t - angle| > 0) && decide (env.clock t < time * 1000)

/-- Loop body of Robot.turn: proportional correction with stiction offset,
steering fixed at 100, kTurn = 0.01, offset = 20. -/
def turnBody (env : Env) (angle : ℤ) (speed : ℚ) (t : ℕ) (_s : Unit) : List Cmd × Unit :=
  let error := env.gyro t - angle
  (Robot.moveSteering 100 (speed * (error : ℚ) * 0.01 + copysign 20 (error : ℚ)), ())

/-- Robot.turn(angle, speed, time): runs the proportional turn loop and
stops with HOLD when the loop exits. -/
def Robot.turn (env : Env) (angle : ℤ) (speed : ℚ) (time : ℕ) (fuel : ℕ) :
    List Cmd × Option ℕ :=
  let r := loopRun (turnCond env angle time) (turnBody env angle speed) 0 () fuel
  (r.1 ++
      (match r.2.1 with
       | some _ => Robot.stop .hold
       | none => []),
    r.2.1)

/-- The per-tick steering command of lineFollow2Line: PD correction with
p-gain 0.25 and d-gain 1.25, flipped by the side sign. -/
def lf2Steering (lineThr : ℚ) (lightVal : ℤ) (lastError kSide : ℚ) : ℚ :=
  let error := lineThr - (lightVal : ℚ)
  let pCorrection := error * 0.25
  let dError := lastError - error
  let dCorrection := dError * 1.25
  (pCorrection - dCorrection) * kSide

/-- The per-tick steering command of lineFollow4Time: PD correction with
p-gain 0.25 and d-gain 1.2, flipped by the side sign. -/
def lf4Steering (lineThr : ℚ) (lightVal : ℤ) (lastError kSide : ℚ) : ℚ :=
  let error := lineThr - (lightVal : ℚ)
  let pCorrection := error * 0.25
  let dError := lastError - error
  let dCorrection := dError * 1.2
  (pCorrection - dCorrection) * kSide

/-- Loop body of lineFollow2Line: issues the PD steering command at the
base speed and stores the current error as lastError. -/
def lf2Body (followS : LightSensor) (followLight : ℕ → ℤ) (speed kSide : ℚ)
    (t : ℕ) (lastError : ℚ) : List Cmd × ℚ :=
  (Robot.moveSteering (lf2Steering followS.line (followLight t) lastError kSide) speed,
    followS.line - (followLight t : ℚ))

/-- Loop body of lineFollow4Time: same shape with the 1.2 d-gain law. -/
def lf4Body (followS : LightSensor) (followLight : ℕ → ℤ) (speed kSide : ℚ)
    (t : ℕ) (lastError : ℚ) : List Cmd × ℚ :=
  (Robot.moveSteering (lf4Steering followS.line (followLight t) lastError kSide) speed,
    followS.line - (followLight t : ℚ))

/-- Robot.lineFollow2Line(speed, rightSide, useRightSensor): follows with
one sensor until the other sensor reads white, then stops (HOLD).  Returns
the command trace, the exit tick and the final lastError. -/
def Robot.lineFollow2Line (r : Robot) (env : Env) (speed : ℚ)
    (rightSide useRightSensor : Bool) (fuel : ℕ) : List Cmd × Option ℕ × ℚ :=
  let followS := if useRightSensor then r.rightSensor else r.leftSensor
  let stopS := if useRightSensor then r.leftSensor else r.rightSensor
  let followLight := if useRightSensor then env.rightLight else env.leftLight
  let stopLight := if useRightSensor then env.leftLight else env.rightLight
  let kSide : ℚ := if rightSide then 1 else -1
  let res := loopRun (fun t => !stopS.isWhite (stopLight t))
    (lf2Body followS followLight speed kSide) 0 0 fuel
  (res.1 ++
      (match res.2.1 with
       | some _ => Robot.stop .hold
       | none => []),
    res.2.1, res.2.2)

/-- Robot.lineFollow4Time(speed, time, rightSide, useRightSensor): same
control shape, terminating on the stopwatch. -/
def Robot.lineFollow4Time (r : Robot) (env : Env) (speed : ℚ) (time : ℕ)
    (rightSide useRightSensor : Bool) (fuel : ℕ) : List Cmd × Option ℕ × ℚ :=
  let followS := if useRightSensor then r.rightSensor else r.leftSensor
  let followLight := if useRightSensor then env.rightLight else env.leftLight
  let kSide : ℚ := if rightSide then 1 else -1
  let res := loopRun (fun t => decide (env.clock t < time * 1000))
    (lf4Body followS followLight speed kSide) 0 0 fuel
  (res.1 ++
      (match res.2.1 with
       | some _ => Robot.stop .hold
       | none => []),
    res.2.1, res.2.2)

/-- Robot.turn2Line(speed, useRightSensor, time): curves in place with
moveSteering(100, speed) until the selected sensor's waitForLine returns,
then stops.  The time parameter is accepted and unused, as in the source. -/
def Robot.turn2Line (r : Robot) (env : Env) (speed : ℚ) (useRightSensor : Bool)
    (_time : ℕ) (fuel : ℕ) : List Cmd × Option ℕ :=
  let stopS := if useRightSensor then r.rightSensor else r.leftSensor
  let stopLight := if useRightSensor then env.rightLight else env.leftLight
  let w := stopS.waitForLine stopLight 0 fuel
  (Robot.moveSteering 100 speed ++
      (match w with
       | some _ => Robot.stop .hold
       | none => []),
    w)

/-- Robot.drive2Line(speed, distanceBefore, distanceAfter, useRightSensor):
drive the pre-distance, creep at half speed until the selected sensor sees
a line, stop with HOLD, then drive the post-distance.  Each phase reads its
own environment (each has its own stopwatch and resumes the streams). -/
def Robot.drive2Line (r : Robot) (envA envB envC : Env) (sinF : ℚ → ℚ)
    (speed distanceBefore distanceAfter : ℚ) (useRightSensor : Bool) (fuel : ℕ) : List Cmd :=
  let stopS := if useRightSensor then r.rightSensor else r.leftSensor
  let stopLight := if useRightSensor then envB.rightLight else envB.leftLight
  let d1 := Robot.drive sinF envA distanceBefore speed 20 1 fuel
  match d1.2 with
  | none => d1.1
  | some _ =>
    let creep := Robot.moveSteering 0 (0.5 * speed)
    match stopS.waitForLine stopLight 0 fuel with
    | none => d1.1 ++ creep
    | some _ =>
      let d2 := Robot.drive sinF envC distanceAfter speed 20 1 fuel
      d1.1 ++ creep ++ Robot.stop .hold ++ d2.1

/-- A command trace touches only the two drive motors. -/
def onlyDrive (cs : List Cmd) : Prop :=
  ∀ c ∈ cs, cmdMotor c = MotorId.left ∨ cmdMotor c = MotorId.right

/-! ### Generic facts about the loop combinator -/

lemma loopRun_cmds_pred {σ : Type} (cond : ℕ → Bool) (body : ℕ → σ → List Cmd × σ)
    (P : Cmd → Prop) (hb : ∀ t s, ∀ c ∈ (body t s).1, P c) :
    ∀ (fuel t0 : ℕ) (s : σ), ∀ c ∈ (loopRun cond body t0 s fuel).1, P c := by
  intro fuel
  induction fuel with
  | zero => intro t0 s c hc; simp [loopRun] at hc
  | succ n ih =>
    intro t0 s c hc
    by_cases h : cond t0
    · simp [loopRun, h] at hc
      rcases hc with hc | hc
      · exact hb t0 s c hc
      · exact ih (t0 + 1) _ c hc
    · simp [loopRun, h] at hc

lemma loopRun_exit_first {σ : Type} (cond : ℕ → Bool) (body : ℕ → σ → List Cmd × σ) :
    ∀ (fuel t0 : ℕ) (s : σ) (te : ℕ), (loopRun cond body t0 s fuel).2.1 = some te →
      cond te = false ∧ t0 ≤ te ∧ ∀ t, t0 ≤ t → t < te → cond t = true := by
  intro fuel
  induction fuel with
  | zero => intro t0 s te h; simp [loopRun] at h
  | succ n ih =>
    intro t0 s te h
    by_cases hc : cond t0
    · simp [loopRun, hc] at h
      obtain ⟨hf, hge, hall⟩ := ih (t0 + 1) _ te h
      refine ⟨hf, by omega, ?_⟩
      intro t h1 h2
      rcases Nat.eq_or_lt_of_le h1 with rfl | h3
      · exact hc
      · exact hall t h3 h2
    · simp [loopRun, hc] at h
      subst h
      exact ⟨by simpa using hc, le_refl _, fun t h1 h2 => absurd (lt_of_le_of_lt h1 h2) (lt_irrefl _)⟩

lemma loopRun_exits {σ : Type} (cond : ℕ → Bool) (body : ℕ → σ → List Cmd × σ) (T : ℕ)
    (hT : cond T = false) :
    ∀ (fuel t0 : ℕ) (s : σ), t0 ≤ T → T < t0 + fuel →
      ∃ te, (loopRun cond body t0 s fuel).2.1 = some te ∧ te ≤ T ∧ cond te = false := by
  intro fuel
  induction fuel with
  | zero => intro t0 s h1 h2; omega
  | succ n ih =>
    intro t0 s h1 h2
    by_cases hc : cond t0
    · have ht0 : t0 ≠ T := by
        intro e
        rw [e, hT] at hc
        simp at hc
      obtain ⟨te, he, h3, h4⟩ := ih (t0 + 1) ((body t0 s).2) (by omega) (by omega)
      refine ⟨te, ?_, h3, h4⟩
      simp [loopRun, hc]
      exact he
    · exact ⟨t0, by simp [loopRun, hc], h1, by simpa using hc⟩

lemma loopRun_none {σ : Type} (cond : ℕ → Bool) (body : ℕ → σ → List Cmd × σ)
    (h : ∀ t, cond t = true) :
    ∀ (fuel t0 : ℕ) (s : σ), (loopRun cond body t0 s fuel).2.1 = none := by
  intro fuel
  induction fuel with
  | zero => intro t0 s; simp [loopRun]
  | succ n ih => intro t0 s; simp [loopRun, h t0, ih]

lemma loopRun_state {σ : Type} (cond : ℕ → Bool) (body : ℕ → σ → List Cmd × σ) :
    ∀ (fuel t0 : ℕ) (s : σ),
      (loopRun cond body t0 s fuel).2.2 =
        (execTicks cond t0 fuel).foldl (fun st t => (body t st).2) s := by
  intro fuel
  induction fuel with
  | zero => intro t0 s; simp [loopRun, execTicks]
  | succ n ih =>
    intro t0 s
    by_cases hc : cond t0
    · simp [loopRun, execTicks, hc, ih]
    · simp [loopRun, execTicks, hc]

/-! ### C4 — LightSensor threshold ordering -/

/-- C4: for every pair of bounds with low < high, LightSensor(low, high)
yields black = low + 0.25(high-low), line = low + 0.5(high-low),
white = low + 0.8(high-low), and low ≤ black ≤ line ≤ white ≤ high. -/
theorem lightSensor_thresholds_ordered (low high : ℚ) (h : low < high) :
    (LightSensor.init low high).black = low + 0.25 * (high - low) ∧
    (LightSensor.init low high).line = low + 0.5 * (high - low) ∧
    (LightSensor.init low high).white = low + 0.8 * (high - low) ∧
    low ≤ (LightSensor.init low high).black ∧
    (LightSensor.init low high).black ≤ (LightSensor.init low high).line ∧
    (LightSensor.init low high).line ≤ (LightSensor.init low high).white ∧
    (LightSensor.init low high).white ≤ high := by
  have e1 : (LightSensor.init low high).black = low + (high - low) * 0.25 := rfl
  have e2 : (LightSensor.init low high).line = low + (high - low) * 0.5 := rfl
  have e3 : (LightSensor.init low high).white = low + (high - low) * 0.8 := rfl
  rw [e1, e2, e3]
  refine ⟨by ring, by ring, by ring, by linarith, by linarith, by linarith, by linarith⟩

/-- C4 witness: the ordering at the default left-sensor bounds (10, 105). -/
theorem lightSensor_thresholds_ordered_witness :
    (LightSensor.init 10 105).black = 10 + 0.25 * (105 - 10) ∧
    (LightSensor.init 10 105).line = 10 + 0.5 * (105 - 10) ∧
    (LightSensor.init 10 105).white = 10 + 0.8 * (105 - 10) ∧
    (10 : ℚ) ≤ (LightSensor.init 10 105).black ∧
    (LightSensor.init 10 105).black ≤ (LightSensor.init 10 105).line ∧
    (LightSensor.init 10 105).line ≤ (LightSensor.init 10 105).white ∧
    (LightSensor.init 10 105).white ≤ 105 :=
  lightSensor_thresholds_ordered 10 105 (by norm_num)

/-! ### C3 — moveSteering attenuation -/

/-- C3 counterexample: at steering 200 (positive) and base speed -100, the
right wheel is commanded at 300, which is below the left wheel's -100 and
three times the base speed in magnitude, so the claim fails as stated. -/
theorem moveSteering_claim_false :
    ¬ (rightMotorSpeed 200 (-100) ≤ leftMotorSpeed 200 (-100) ∧
       |leftMotorSpeed 200 (-100)| ≤ |(-100 : ℚ)| ∧
       |rightMotorSpeed 200 (-100)| ≤ |(-100 : ℚ)|) := by
  have hR : rightMotorSpeed 200 (-100) = 300 := by
    unfold rightMotorSpeed
    rw [min_eq_right (by norm_num)]
    norm_num
  intro h
  rw [hR] at h
  have := h.2.2
  norm_num at this

/-- C3 (amended): for 0 < steering ≤ 100 and base speed s ≥ 0,
moveSteering commands leftSpeed ≥ rightSpeed and neither wheel speed
exceeds the base speed in magnitude. -/
theorem moveSteering_attenuates (steering s : ℚ)
    (h1 : 0 < steering) (h2 : steering ≤ 100) (h3 : 0 ≤ s) :
    rightMotorSpeed steering s ≤ leftMotorSpeed steering s ∧
    |leftMotorSpeed steering s| ≤ |s| ∧ |rightMotorSpeed steering s| ≤ |s| := by
  have hl : leftMotorSpeed steering s = s := by
    unfold leftMotorSpeed
    rw [min_eq_left (by linarith)]
    exact mul_one s
  have hc1 : min 1 (-0.02 * steering + 1) ≤ 1 := min_le_left _ _
  have hc2 : (-1 : ℚ) ≤ min 1 (-0.02 * steering + 1) := le_min (by norm_num) (by linarith)
  refine ⟨?_, ?_, ?_⟩
  · rw [hl]
    unfold rightMotorSpeed
    calc s * min 1 (-0.02 * steering + 1) ≤ s * 1 := mul_le_mul_of_nonneg_left hc1 h3
      _ = s := mul_one s
  · rw [hl]
  · unfold rightMotorSpeed
    rw [abs_mul]
    have habs : |min 1 (-0.02 * steering + 1)| ≤ 1 := abs_le.mpr ⟨hc2, hc1⟩
    calc |s| * |min 1 (-0.02 * steering + 1)| ≤ |s| * 1 :=
          mul_le_mul_of_nonneg_left habs (abs_nonneg s)
      _ = |s| := mul_one _

/-- C3 witness: the amended bounds at steering 50, speed 100. -/
theorem moveSteering_attenuates_witness :
    rightMotorSpeed 50 100 ≤ leftMotorSpeed 50 100 ∧
    |leftMotorSpeed 50 100| ≤ |(100 : ℚ)| ∧ |rightMotorSpeed 50 100| ≤ |(100 : ℚ)| :=
  moveSteering_attenuates 50 100 (by norm_num) (by norm_num) (by norm_num)

/-! ### C1 — the two line-following control laws -/

/-- C1 counterexample: with line threshold 50, reading 70, previousError 0
and right-side convention, lineFollow2Line commands steering -30 (d-gain
1.25) while lineFollow4Time commands -29 (d-gain 1.2), so the two loops do
not share one and the same per-tick law. -/
theorem lineFollow_gain_mismatch : lf2Steering 50 70 0 1 ≠ lf4Steering 50 70 0 1 := by
  norm_num [lf2Steering, lf4Steering]

/-- C1 (amended): both loops compute error = line - light(), pCorrection =
0.25·error and steering = (pCorrection - dCorrection)·sideSign, but
lineFollow2Line uses dCorrection = 1.25·(previousError - error) while
lineFollow4Time uses 1.2·(previousError - error); for a nonzero side sign
their steering commands coincide exactly when previousError equals the
current error. -/
theorem lineFollow_steering_agree_iff (l : ℚ) (r : ℤ) (last k : ℚ) (hk : k ≠ 0) :
    lf2Steering l r last k = lf4Steering l r last k ↔ last = l - (r : ℚ) := by
  simp only [lf2Steering, lf4Steering]
  constructor
  · intro h
    have h2 := mul_right_cancel₀ hk h
    linarith
  · intro h
    rw [h]
    ring

/-- C1 witness: with previousError -20 equal to the current error the two
laws agree at line threshold 50 and reading 70. -/
theorem lineFollow_steering_agree_iff_witness :
    lf2Steering 50 70 (-20) 1 = lf4Steering 50 70 (-20) 1 ↔ (-20 : ℚ) = 50 - (70 : ℤ) :=
  lineFollow_steering_agree_iff 50 70 (-20) 1 (by norm_num)

/-! ### C2 — drive with distance 0 -/

/-- With distance 0 the rotation target is 0, the loop guard fails at tick
0 (no iteration runs, so the ramp-factor division is never evaluated), and
the trace is exactly the encoder reset followed by the two HOLD stops. -/
lemma drive_zero_trace (sinF : ℚ → ℚ) (env : Env) (speed : ℚ) (time : ℕ)
    (kSteering : ℚ) (fuel : ℕ) (hfuel : 0 < fuel) :
    Robot.drive sinF env 0 speed time kSteering fuel =
      ([Cmd.resetAngle .right 0, Cmd.stopM .right .hold, Cmd.stopM .left .hold], some 0) := by
  cases fuel with
  | zero => omega
  | succ n =>
    have hcond : driveCond env 0 time 0 = false := by
      unfold driveCond
      have h1 : ¬ (|(env.motorDeg 0 : ℚ)| < |(0 : ℚ)|) := by
        rw [abs_zero]
        exact not_lt.mpr (abs_nonneg _)
      simp [h1]
    simp only [Robot.drive, lt_self_iff_false, if_false]
    simp [loopRun, hcond, Robot.stop]

/-- An environment whose streams are all zero. -/
def envZero : Env :=
  { gyro := fun _ => 0
    motorDeg := fun _ => 0
    clock := fun _ => 0
    leftLight := fun _ => 0
    rightLight := fun _ => 0 }

/-- C2 counterexample: drive(0, 100) does issue motor commands — its trace
is nonempty and stops the right drive motor — so the claim that it returns
immediately issuing no motor commands is false as stated. -/
theorem drive_zero_not_commandfree :
    (Robot.drive (fun _ => 0) envZero 0 100 20 1 5).1 ≠ [] ∧
    Cmd.stopM .right .hold ∈ (Robot.drive (fun _ => 0) envZero 0 100 20 1 5).1 := by
  rw [drive_zero_trace (fun _ => 0) envZero 100 20 1 5 (by norm_num)]
  exact ⟨by simp, by simp⟩

/-- C2 (amended): for every nonzero speed, drive(0, speed) executes zero
loop iterations — the loop guard fails immediately, no run command is ever
issued and the division by the rotation target in the ramp factor is never
reached — though it does reset the right motor encoder and stop both drive
motors with HOLD. -/
theorem drive_zero_distance (sinF : ℚ → ℚ) (env : Env) (speed : ℚ) (time : ℕ)
    (kSteering : ℚ) (fuel : ℕ) (hspeed : speed ≠ 0) (hfuel : 0 < fuel) :
    Robot.drive sinF env 0 speed time kSteering fuel =
      ([Cmd.resetAngle .right 0, Cmd.stopM .right .hold, Cmd.stopM .left .hold], some 0) ∧
    (∀ c ∈ (Robot.drive sinF env 0 speed time kSteering fuel).1,
      ∀ m v, c ≠ Cmd.run m v) := by
  have h := drive_zero_trace sinF env speed time kSteering fuel hfuel
  refine ⟨h, ?_⟩
  rw [h]
  intro c hc m v
  simp only [List.mem_cons, List.not_mem_nil, or_false] at hc
  rcases hc with rfl | rfl | rfl <;> simp

/-- C2 witness: the amended statement at speed 100 in the zero environment. -/
theorem drive_zero_distance_witness :
    (Robot.drive (fun _ => 0) envZero 0 100 20 1 5 =
      ([Cmd.resetAngle .right 0, Cmd.stopM .right .hold, Cmd.stopM .left .hold], some 0)) ∧
    (∀ c ∈ (Robot.drive (fun _ => 0) envZero 0 100 20 1 5).1,
      ∀ m v, c ≠ Cmd.run m v) :=
  drive_zero_distance (fun _ => 0) envZero 100 20 1 5 (by norm_num) (by norm_num)

/-! ### C10 — lineFollow2Line stopping on a first white reading -/

/-- C10: when the stop sensor classifies white on the very first reading,
the lineFollow2Line loop body never executes: no run command is issued,
lastError keeps its initial value 0, and the trace is exactly the two HOLD
stops of the drive motors. -/
theorem lf2_first_reading_white (r : Robot) (env : Env) (speed : ℚ)
    (rightSide useRightSensor : Bool) (fuel : ℕ) (hfuel : 0 < fuel)
    (hwhite : (if useRightSensor then r.leftSensor else r.rightSensor).isWhite
        ((if useRightSensor then env.leftLight else env.rightLight) 0) = true) :
    Robot.lineFollow2Line r env speed rightSide useRightSensor fuel =
      ([Cmd.stopM .right .hold, Cmd.stopM .left .hold], some 0, 0) := by
  cases fuel with
  | zero => omega
  | succ n =>
    cases useRightSensor with
    | false =>
      simp at hwhite
      simp [Robot.lineFollow2Line, loopRun, hwhite, Robot.stop]
    | true =>
      simp at hwhite
      simp [Robot.lineFollow2Line, loopRun, hwhite, Robot.stop]

/-- An environment whose left light sensor constantly reads 300. -/
def envWhiteLeft : Env :=
  { gyro := fun _ => 0
    motorDeg := fun _ => 0
    clock := fun _ => 0
    leftLight := fun _ => 300
    rightLight := fun _ => 0 }

/-- C10 witness: with the default sensors, a constant left reading of 300
classifies white (threshold 86), so the loop exits at tick 0. -/
theorem lf2_first_reading_white_witness :
    Robot.lineFollow2Line defaultRobot envWhiteLeft 200 true true 3 =
      ([Cmd.stopM .right .hold, Cmd.stopM .left .hold], some 0, 0) :=
  lf2_first_reading_white defaultRobot envWhiteLeft 200 true true 3 (by norm_num)
    (by
      simp [defaultRobot, envWhiteLeft, LightSensor.isWhite, LightSensor.init]
      norm_num)

/-! ### C6 — turn termination -/

/-- A simulated gyro gaining 10 degrees per tick with a 100 ms tick. -/
def simTurnEnv : Env :=
  { gyro := fun t => 10 * (t : ℤ)
    motorDeg := fun _ => 0
    clock := fun t => 100 * t
    leftLight := fun _ => 0
    rightLight := fun _ => 0 }

/-- C6: the turn loop guard fails exactly when the heading error is exactly
0 or the stopwatch has reached the timeout; when turn exits at a tick every
earlier tick satisfied the guard (it exits at the first such tick); and on
a simulated gyro gaining 10 degrees per tick from 0, turn(90, 300, 5) exits
at tick 9 with zero final error, before the timeout. -/
theorem turn_exact_zero_or_timeout :
    (∀ (env : Env) (angle : ℤ) (time t : ℕ),
        turnCond env angle time t = false ↔
          (env.gyro t - angle = 0 ∨ time * 1000 ≤ env.clock t)) ∧
    (∀ (env : Env) (angle : ℤ) (speed : ℚ) (time fuel te : ℕ),
        (Robot.turn env angle speed time fuel).2 = some te →
          turnCond env angle time te = false ∧
            ∀ t, t < te → turnCond env angle time t = true) ∧
    ((Robot.turn simTurnEnv 90 300 5 20).2 = some 9 ∧
      simTurnEnv.gyro 9 - 90 = 0 ∧ simTurnEnv.clock 9 < 5 * 1000) := by
  refine ⟨?_, ?_, ?_, ?_, ?_⟩
  · intro env angle time t
    simp only [turnCond, Bool.and_eq_false_iff, decide_eq_false_iff_not, not_lt]
    constructor
    · rintro (h | h)
      · exact Or.inl (abs_nonpos_iff.mp h)
      · exact Or.inr h
    · rintro (h | h)
      · exact Or.inl (by rw [h]; simp)
      · exact Or.inr h
  · intro env angle speed time fuel te h
    have h2 : (loopRun (turnCond env angle time) (turnBody env angle speed) 0 () fuel).2.1 =
        some te := by
      simpa [Robot.turn] using h
    obtain ⟨hf, _, hall⟩ := loopRun_exit_first _ _ fuel 0 () te h2
    exact ⟨hf, fun t ht => hall t (Nat.zero_le t) ht⟩
  · decide
  · decide
  · decide

/-- C6 witness: the guard characterisation at tick 0 of the simulation, and
first-exit facts obtained from the simulated run exiting at tick 9. -/
theorem turn_exact_zero_or_timeout_witness :
    (turnCond simTurnEnv 90 5 0 = false ↔
      (simTurnEnv.gyro 0 - 90 = 0 ∨ 5 * 1000 ≤ simTurnEnv.clock 0)) ∧
    (turnCond simTurnEnv 90 5 9 = false ∧ ∀ t, t < 9 → turnCond simTurnEnv 90 5 t = true) :=
  ⟨turn_exact_zero_or_timeout.1 simTurnEnv 90 5 0,
   turn_exact_zero_or_timeout.2.1 simTurnEnv 90 300 5 20 9 (by decide)⟩

/-! ### C7 — drive terminates once the timeout is reached -/

/-- C7: for every distance d > 0 and nonzero speed, the drive loop cannot
run past any tick at which the stopwatch has reached time*1000 ms: given
enough fuel to reach such a tick T, the loop exits at some tick te ≤ T with
the guard false, even if the rotation target is never reached. -/
theorem drive_terminates_by_timeout (sinF : ℚ → ℚ) (env : Env) (d speed : ℚ)
    (time : ℕ) (kSteering : ℚ) (fuel T : ℕ)
    (hd : 0 < d) (hs : speed ≠ 0)
    (hT : time * 1000 ≤ env.clock T) (hfuel : T < fuel) :
    ∃ te, (Robot.drive sinF env d speed time kSteering fuel).2 = some te ∧
      te ≤ T ∧ driveCond env (d * 51.9) time te = false := by
  have hnneg : ¬ (d < 0) := not_lt.mpr hd.le
  have hclk : ¬ (env.clock T < time * 1000) := not_lt.mpr hT
  have hcT : driveCond env (d * 51.9) time T = false := by
    simp [driveCond, hclk]
  obtain ⟨te, he, h1, h2⟩ := loopRun_exits (driveCond env (d * 51.9) time)
    (driveBody sinF env (env.gyro 0) (d * 51.9) speed kSteering) T hcT fuel 0 ()
    (Nat.zero_le T) (by omega)
  refine ⟨te, ?_, h1, h2⟩
  simp only [Robot.drive, hnneg, if_false]
  exact he

/-- An environment whose stopwatch advances one millisecond per tick. -/
def envClockTick : Env :=
  { gyro := fun _ => 0
    motorDeg := fun _ => 0
    clock := fun t => t
    leftLight := fun _ => 0
    rightLight := fun _ => 0 }

/-- C7 witness: drive(1, 100) with the default 20 s timeout exits by tick
20000 when the clock advances 1 ms per tick. -/
theorem drive_terminates_by_timeout_witness :
    ∃ te, (Robot.drive (fun _ => 0) envClockTick 1 100 20 1 20001).2 = some te ∧
      te ≤ 20000 ∧ driveCond envClockTick (1 * 51.9) 20 te = false :=
  drive_terminates_by_timeout (fun _ => 0) envClockTick 1 100 20 1 20001 20000
    (by norm_num) (by norm_num) (by decide) (by decide)

/-! ### C8 — blocking waits -/

lemma waitForWhite_some (s : LightSensor) (lights : ℕ → ℤ) :
    ∀ (fuel t0 te : ℕ), s.waitForWhite lights t0 fuel = some te →
      s.isWhite (lights te) = true ∧ ∀ t, t0 ≤ t → t < te → s.isWhite (lights t) = false := by
  intro fuel
  induction fuel with
  | zero => intro t0 te h; simp [LightSensor.waitForWhite] at h
  | succ n ih =>
    intro t0 te h
    by_cases hw : s.isWhite (lights t0)
    · simp [LightSensor.waitForWhite, hw] at h
      subst h
      exact ⟨hw, fun t h1 h2 => absurd (lt_of_le_of_lt h1 h2) (lt_irrefl _)⟩
    · simp [LightSensor.waitForWhite, hw] at h
      obtain ⟨h1, h2⟩ := ih (t0 + 1) te h
      refine ⟨h1, ?_⟩
      intro t ha hb
      rcases Nat.eq_or_lt_of_le ha with rfl | hlt
      · simpa using hw
      · exact h2 t hlt hb

lemma waitForWhite_none (s : LightSensor) (lights : ℕ → ℤ)
    (hnever : ∀ t, s.isWhite (lights t) = false) :
    ∀ (fuel t0 : ℕ), s.waitForWhite lights t0 fuel = none := by
  intro fuel
  induction fuel with
  | zero => intro t0; simp [LightSensor.waitForWhite]
  | succ n ih => intro t0; simp [LightSensor.waitForWhite, hnever t0, ih]

lemma waitForBlack_some (s : LightSensor) (lights : ℕ → ℤ) :
    ∀ (fuel t0 te : ℕ), s.waitForBlack lights t0 fuel = some te →
      s.isBlack (lights te) = true ∧ ∀ t, t0 ≤ t → t < te → s.isBlack (lights t) = false := by
  intro fuel
  induction fuel with
  | zero => intro t0 te h; simp [LightSensor.waitForBlack] at h
  | succ n ih =>
    intro t0 te h
    by_cases hw : s.isBlack (lights t0)
    · simp [LightSensor.waitForBlack, hw] at h
      subst h
      exact ⟨hw, fun t h1 h2 => absurd (lt_of_le_of_lt h1 h2) (lt_irrefl _)⟩
    · simp [LightSensor.waitForBlack, hw] at h
      obtain ⟨h1, h2⟩ := ih (t0 + 1) te h
      refine ⟨h1, ?_⟩
      intro t ha hb
      rcases Nat.eq_or_lt_of_le ha with rfl | hlt
      · simpa using hw
      · exact h2 t hlt hb

lemma waitForBlack_none (s : LightSensor) (lights : ℕ → ℤ)
    (hnever : ∀ t, s.isBlack (lights t) = false) :
    ∀ (fuel t0 : ℕ), s.waitForBlack lights t0 fuel = none := by
  intro fuel
  induction fuel with
  | zero => intro t0; simp [LightSensor.waitForBlack]
  | succ n ih => intro t0; simp [LightSensor.waitForBlack, hnever t0, ih]

lemma waitForWhite_succ_true (s : LightSensor) (lights : ℕ → ℤ) (t0 fuel : ℕ)
    (h : s.isWhite (lights t0) = true) : s.waitForWhite lights t0 (fuel + 1) = some t0 := by
  simp [LightSensor.waitForWhite, h]

lemma waitForBlack_succ_true (s : LightSensor) (lights : ℕ → ℤ) (t0 fuel : ℕ)
    (h : s.isBlack (lights t0) = true) : s.waitForBlack lights t0 (fuel + 1) = some t0 := by
  simp [LightSensor.waitForBlack, h]

/-- C8: waitForWhite returns exactly at the first polled reading classified
white (every earlier poll was not white), and when no reading is ever
classified white it never returns, for any amount of fuel; likewise for
waitForBlack with the black classification. -/
theorem waitFor_first_and_blocking :
    (∀ (s : LightSensor) (lights : ℕ → ℤ) (fuel t0 te : ℕ),
        s.waitForWhite lights t0 fuel = some te →
          s.isWhite (lights te) = true ∧
            ∀ t, t0 ≤ t → t < te → s.isWhite (lights t) = false) ∧
    (∀ (s : LightSensor) (lights : ℕ → ℤ) (t0 : ℕ),
        (∀ t, s.isWhite (lights t) = false) →
          ∀ fuel, s.waitForWhite lights t0 fuel = none) ∧
    (∀ (s : LightSensor) (lights : ℕ → ℤ) (fuel t0 te : ℕ),
        s.waitForBlack lights t0 fuel = some te →
          s.isBlack (lights te) = true ∧
            ∀ t, t0 ≤ t → t < te → s.isBlack (lights t) = false) ∧
    (∀ (s : LightSensor) (lights : ℕ → ℤ) (t0 : ℕ),
        (∀ t, s.isBlack (lights t) = false) →
          ∀ fuel, s.waitForBlack lights t0 fuel = none) :=
  ⟨fun s lights fuel t0 te h => waitForWhite_some s lights fuel t0 te h,
   fun s lights t0 h fuel => waitForWhite_none s lights h fuel t0,
   fun s lights fuel t0 te h => waitForBlack_some s lights fuel t0 te h,
   fun s lights t0 h fuel => waitForBlack_none s lights h fuel t0⟩

/-- C8 witness: on a sensor with bounds (0, 100) — white threshold 80,
black threshold 25 — a constant reading of 90 makes waitForWhite return at
its first poll, a constant 50 blocks both waits for every fuel, and a
constant 10 makes waitForBlack return at its first poll. -/
theorem waitFor_first_and_blocking_witness :
    ((LightSensor.init 0 100).isWhite 90 = true ∧
      (∀ t, 0 ≤ t → t < 0 → (LightSensor.init 0 100).isWhite 90 = false)) ∧
    (∀ fuel, (LightSensor.init 0 100).waitForWhite (fun _ => 50) 0 fuel = none) ∧
    ((LightSensor.init 0 100).isBlack 10 = true ∧
      (∀ t, 0 ≤ t → t < 0 → (LightSensor.init 0 100).isBlack 10 = false)) ∧
    (∀ fuel, (LightSensor.init 0 100).waitForBlack (fun _ => 50) 0 fuel = none) := by
  have hw : (LightSensor.init 0 100).isWhite 90 = true := by
    norm_num [LightSensor.isWhite, LightSensor.init]
  have hb : (LightSensor.init 0 100).isBlack 10 = true := by
    norm_num [LightSensor.isBlack, LightSensor.init]
  have hnw : ∀ t : ℕ, (LightSensor.init 0 100).isWhite ((fun _ => (50 : ℤ)) t) = false := by
    intro t
    norm_num [LightSensor.isWhite, LightSensor.init]
  have hnb : ∀ t : ℕ, (LightSensor.init 0 100).isBlack ((fun _ => (50 : ℤ)) t) = false := by
    intro t
    norm_num [LightSensor.isBlack, LightSensor.init]
  exact ⟨waitFor_first_and_blocking.1 (LightSensor.init 0 100) (fun _ => 90) 1 0 0
      (waitForWhite_succ_true (LightSensor.init 0 100) (fun _ => 90) 0 0 hw),
    waitFor_first_and_blocking.2.1 (LightSensor.init 0 100) (fun _ => 50) 0 hnw,
    waitFor_first_and_blocking.2.2.1 (LightSensor.init 0 100) (fun _ => 10) 1 0 0
      (waitForBlack_succ_true (LightSensor.init 0 100) (fun _ => 10) 0 0 hb),
    waitFor_first_and_blocking.2.2.2 (LightSensor.init 0 100) (fun _ => 50) 0 hnb⟩

/-! ### C5 — calibration tracks running min and max -/

lemma calibFold_proj (env : Env) :
    ∀ (l : List ℕ) (s : CalibSt),
      l.foldl (fun st t => (calibBody env t st).2) s =
        ⟨l.foldl (fun h t => if env.rightLight t > h then env.rightLight t else h) s.rightHigh,
         l.foldl (fun h t => if env.rightLight t < h then env.rightLight t else h) s.rightLow,
         l.foldl (fun h t => if env.leftLight t > h then env.leftLight t else h) s.leftHigh,
         l.foldl (fun h t => if env.leftLight t < h then env.leftLight t else h) s.leftLow⟩ := by
  intro l
  induction l with
  | nil => intro s; rfl
  | cons a l ih =>
    intro s
    simp only [List.foldl_cons]
    rw [ih]
    rfl

lemma maxFold_le (f : ℕ → ℤ) (B : ℤ) :
    ∀ (l : List ℕ) (h0 : ℤ), h0 ≤ B → (∀ t ∈ l, f t ≤ B) →
      l.foldl (fun h t => if f t > h then f t else h) h0 ≤ B := by
  intro l
  induction l with
  | nil => intro h0 h1 _; simpa using h1
  | cons a l ih =>
    intro h0 h1 h2
    simp only [List.foldl_cons]
    apply ih
    · by_cases hfa : f a > h0
      · simpa [hfa] using h2 a (by simp)
      · simpa [hfa] using h1
    · intro t ht
      exact h2 t (by simp [ht])

lemma maxFold_ge_start (f : ℕ → ℤ) :
    ∀ (l : List ℕ) (h0 : ℤ), h0 ≤ l.foldl (fun h t => if f t > h then f t else h) h0 := by
  intro l
  induction l with
  | nil => intro h0; simp
  | cons a l ih =>
    intro h0
    simp only [List.foldl_cons]
    by_cases hfa : f a > h0
    · simp only [hfa, if_true]
      exact le_trans (le_of_lt hfa) (ih (f a))
    · simp only [hfa, if_false]
      exact ih h0

lemma maxFold_ge_mem (f : ℕ → ℤ) :
    ∀ (l : List ℕ) (h0 : ℤ) (t : ℕ), t ∈ l →
      f t ≤ l.foldl (fun h t => if f t > h then f t else h) h0 := by
  intro l
  induction l with
  | nil => intro h0 t ht; simp at ht
  | cons a l ih =>
    intro h0 t ht
    rcases List.mem_cons.mp ht with rfl | hmem
    · simp only [List.foldl_cons]
      by_cases hfa : f t > h0
      · simp only [hfa, if_true]
        exact maxFold_ge_start f l (f t)
      · simp only [hfa, if_false]
        exact le_trans (not_lt.mp hfa) (maxFold_ge_start f l h0)
    · simp only [List.foldl_cons]
      exact ih _ t hmem

lemma minFold_ge (f : ℕ → ℤ) (B : ℤ) :
    ∀ (l : List ℕ) (h0 : ℤ), B ≤ h0 → (∀ t ∈ l, B ≤ f t) →
      B ≤ l.foldl (fun h t => if f t < h then f t else h) h0 := by
  intro l
  induction l with
  | nil => intro h0 h1 _; simpa using h1
  | cons a l ih =>
    intro h0 h1 h2
    simp only [List.foldl_cons]
    apply ih
    · by_cases hfa : f a < h0
      · simpa [hfa] using h2 a (by simp)
      · simpa [hfa] using h1
    · intro t ht
      exact h2 t (by simp [ht])

lemma minFold_le_start (f : ℕ → ℤ) :
    ∀ (l : List ℕ) (h0 : ℤ), l.foldl (fun h t => if f t < h then f t else h) h0 ≤ h0 := by
  intro l
  induction l with
  | nil => intro h0; simp
  | cons a l ih =>
    intro h0
    simp only [List.foldl_cons]
    by_cases hfa : f a < h0
    · simp only [hfa, if_true]
      exact le_trans (ih (f a)) (le_of_lt hfa)
    · simp only [hfa, if_false]
      exact ih h0

lemma minFold_le_mem (f : ℕ → ℤ) :
    ∀ (l : List ℕ) (h0 : ℤ) (t : ℕ), t ∈ l →
      l.foldl (fun h t => if f t < h then f t else h) h0 ≤ f t := by
  intro l
  induction l with
  | nil => intro h0 t ht; simp at ht
  | cons a l ih =>
    intro h0 t ht
    rcases List.mem_cons.mp ht with rfl | hmem
    · simp only [List.foldl_cons]
      by_cases hfa : f t < h0
      · simp only [hfa, if_true]
        exact minFold_le_start f l (f t)
      · simp only [hfa, if_false]
        exact le_trans (minFold_le_start f l h0) (not_lt.mp hfa)
    · simp only [List.foldl_cons]
      exact ih _ t hmem

/-- C5: the calibration loop tracks the running minimum and maximum of both
sensors' light() readings over its 5-second window from the inverted seeds
(40 as high seed, 70 as low seed): whenever the readings of the executed
window ticks stay within [30, 90] and both 30 and 90 are attained on each
sensor — in particular for any sequence oscillating between 30 and 90 —
the persisted record is leftLow = rightLow = 30 and
leftHigh = rightHigh = 90, the seeds leaving no trace. -/
theorem calibrate_minmax (env : Env) (fuel : ℕ)
    (hRrange : ∀ t ∈ execTicks (calibCond env) 0 fuel,
      30 ≤ env.rightLight t ∧ env.rightLight t ≤ 90)
    (hR30 : ∃ t ∈ execTicks (calibCond env) 0 fuel, env.rightLight t = 30)
    (hR90 : ∃ t ∈ execTicks (calibCond env) 0 fuel, env.rightLight t = 90)
    (hLrange : ∀ t ∈ execTicks (calibCond env) 0 fuel,
      30 ≤ env.leftLight t ∧ env.leftLight t ≤ 90)
    (hL30 : ∃ t ∈ execTicks (calibCond env) 0 fuel, env.leftLight t = 30)
    (hL90 : ∃ t ∈ execTicks (calibCond env) 0 fuel, env.leftLight t = 90) :
    (Robot.calibrate env fuel).2.2.leftLow = 30 ∧
    (Robot.calibrate env fuel).2.2.rightLow = 30 ∧
    (Robot.calibrate env fuel).2.2.leftHigh = 90 ∧
    (Robot.calibrate env fuel).2.2.rightHigh = 90 := by
  have hstate : (Robot.calibrate env fuel).2.2 =
      (execTicks (calibCond env) 0 fuel).foldl (fun st t => (calibBody env t st).2)
        ⟨40, 70, 40, 70⟩ := by
    have h := loopRun_state (calibCond env) (calibBody env) fuel 0 ⟨40, 70, 40, 70⟩
    simpa [Robot.calibrate] using h
  rw [hstate, calibFold_proj]
  refine ⟨?_, ?_, ?_, ?_⟩
  · apply le_antisymm
    · obtain ⟨t, ht, he⟩ := hL30
      calc (execTicks (calibCond env) 0 fuel).foldl
            (fun h t => if env.leftLight t < h then env.leftLight t else h) 70 ≤ env.leftLight t :=
          minFold_le_mem _ _ _ t ht
        _ = 30 := he
    · exact minFold_ge _ 30 _ 70 (by norm_num) (fun t ht => (hLrange t ht).1)
  · apply le_antisymm
    · obtain ⟨t, ht, he⟩ := hR30
      calc (execTicks (calibCond env) 0 fuel).foldl
            (fun h t => if env.rightLight t < h then env.rightLight t else h) 70 ≤ env.rightLight t :=
          minFold_le_mem _ _ _ t ht
        _ = 30 := he
    · exact minFold_ge _ 30 _ 70 (by norm_num) (fun t ht => (hRrange t ht).1)
  · apply le_antisymm
    · exact maxFold_le _ 90 _ 40 (by norm_num) (fun t ht => (hLrange t ht).2)
    · obtain ⟨t, ht, he⟩ := hL90
      calc (90 : ℤ) = env.leftLight t := he.symm
        _ ≤ _ := maxFold_ge_mem _ _ _ t ht
  · apply le_antisymm
    · exact maxFold_le _ 90 _ 40 (by norm_num) (fun t ht => (hRrange t ht).2)
    · obtain ⟨t, ht, he⟩ := hR90
      calc (90 : ℤ) = env.rightLight t := he.symm
        _ ≤ _ := maxFold_ge_mem _ _ _ t ht

/-- A calibration environment with a 1000 ms tick and both light sensors
alternating between 30 and 90; its window executes ticks 0 through 4. -/
def simCalibEnv : Env :=
  { gyro := fun _ => 0
    motorDeg := fun _ => 0
    clock := fun t => 1000 * t
    leftLight := fun t => if t % 2 = 0 then 30 else 90
    rightLight := fun t => if t % 2 = 0 then 30 else 90 }

/-- C5 witness: readings alternating 30, 90, 30, 90, 30 over the five
executed window ticks yield lows 30 and highs 90. -/
theorem calibrate_minmax_witness :
    (Robot.calibrate simCalibEnv 6).2.2.leftLow = 30 ∧
    (Robot.calibrate simCalibEnv 6).2.2.rightLow = 30 ∧
    (Robot.calibrate simCalibEnv 6).2.2.leftHigh = 90 ∧
    (Robot.calibrate simCalibEnv 6).2.2.rightHigh = 90 :=
  calibrate_minmax simCalibEnv 6 (by decide) (by decide) (by decide) (by decide)
    (by decide) (by decide)

/-! ### C9 — only the drive motors are ever commanded -/

lemma onlyDrive_nil : onlyDrive [] := by
  intro c hc
  simp at hc

lemma onlyDrive_append {a b : List Cmd} (ha : onlyDrive a) (hb : onlyDrive b) :
    onlyDrive (a ++ b) := by
  intro c hc
  rcases List.mem_append.mp hc with h | h
  · exact ha c h
  · exact hb c h

lemma onlyDrive_cons {c0 : Cmd} {b : List Cmd}
    (hm : cmdMotor c0 = MotorId.left ∨ cmdMotor c0 = MotorId.right) (hb : onlyDrive b) :
    onlyDrive (c0 :: b) := by
  intro c hc
  rcases List.mem_cons.mp hc with rfl | h
  · exact hm
  · exact hb c h

lemma onlyDrive_moveSteering (steering speed : ℚ) :
    onlyDrive (Robot.moveSteering steering speed) := by
  intro c hc
  simp only [Robot.moveSteering, List.mem_cons, List.not_mem_nil, or_false] at hc
  rcases hc with rfl | rfl
  · exact Or.inl rfl
  · exact Or.inr rfl

lemma onlyDrive_stop (bt : Brake) : onlyDrive (Robot.stop bt) := by
  intro c hc
  simp only [Robot.stop, List.mem_cons, List.not_mem_nil, or_false] at hc
  rcases hc with rfl | rfl
  · exact Or.inr rfl
  · exact Or.inl rfl

lemma onlyDrive_exitStop (o : Option ℕ) :
    onlyDrive (match o with | some _ => Robot.stop .hold | none => []) := by
  cases o with
  | none => exact onlyDrive_nil
  | some t => exact onlyDrive_stop _

lemma onlyDrive_loopRun {σ : Type} (cond : ℕ → Bool) (body : ℕ → σ → List Cmd × σ)
    (hb : ∀ t s, onlyDrive (body t s).1) (fuel t0 : ℕ) (s : σ) :
    onlyDrive (loopRun cond body t0 s fuel).1 :=
  fun c hc => loopRun_cmds_pred cond body _ (fun t s => hb t s) fuel t0 s c hc

lemma onlyDrive_calibrate (env : Env) (fuel : ℕ) : onlyDrive (Robot.calibrate env fuel).1 := by
  simp only [Robot.calibrate]
  exact onlyDrive_append
    (onlyDrive_append (onlyDrive_moveSteering 0 125)
      (onlyDrive_loopRun _ _ (fun t s => onlyDrive_nil) fuel 0 _))
    (onlyDrive_exitStop _)

lemma onlyDrive_drive (sinF : ℚ → ℚ) (env : Env) (distance speed : ℚ) (time : ℕ)
    (kSteering : ℚ) (fuel : ℕ) : onlyDrive (Robot.drive sinF env distance speed time kSteering fuel).1 := by
  simp only [Robot.drive]
  exact onlyDrive_cons (Or.inr rfl)
    (onlyDrive_append
      (onlyDrive_loopRun _ _ (fun t s => onlyDrive_moveSteering _ _) fuel 0 ())
      (onlyDrive_exitStop _))

lemma onlyDrive_turn (env : Env) (angle : ℤ) (speed : ℚ) (time fuel : ℕ) :
    onlyDrive (Robot.turn env angle speed time fuel).1 := by
  simp only [Robot.turn]
  exact onlyDrive_append
    (onlyDrive_loopRun _ _ (fun t s => onlyDrive_moveSteering _ _) fuel 0 ())
    (onlyDrive_exitStop _)

lemma onlyDrive_lineFollow2Line (r : Robot) (env : Env) (speed : ℚ)
    (rightSide useRightSensor : Bool) (fuel : ℕ) :
    onlyDrive (Robot.lineFollow2Line r env speed rightSide useRightSensor fuel).1 := by
  simp only [Robot.lineFollow2Line]
  exact onlyDrive_append
    (onlyDrive_loopRun _ _ (fun t s => onlyDrive_moveSteering _ _) fuel 0 0)
    (onlyDrive_exitStop _)

lemma onlyDrive_lineFollow4Time (r : Robot) (env : Env) (speed : ℚ) (time : ℕ)
    (rightSide useRightSensor : Bool) (fuel : ℕ) :
    onlyDrive (Robot.lineFollow4Time r env speed time rightSide useRightSensor fuel).1 := by
  simp only [Robot.lineFollow4Time]
  exact onlyDrive_append
    (onlyDrive_loopRun _ _ (fun t s => onlyDrive_moveSteering _ _) fuel 0 0)
    (onlyDrive_exitStop _)

lemma onlyDrive_turn2Line (r : Robot) (env : Env) (speed : ℚ) (useRightSensor : Bool)
    (time fuel : ℕ) : onlyDrive (Robot.turn2Line r env speed useRightSensor time fuel).1 := by
  simp only [Robot.turn2Line]
  exact onlyDrive_append (onlyDrive_moveSteering 100 speed) (onlyDrive_exitStop _)

lemma onlyDrive_drive2Line (r : Robot) (envA envB envC : Env) (sinF : ℚ → ℚ)
    (speed distanceBefore distanceAfter : ℚ) (useRightSensor : Bool) (fuel : ℕ) :
    onlyDrive (Robot.drive2Line r envA envB envC sinF speed distanceBefore distanceAfter
      useRightSensor fuel) := by
  simp only [Robot.drive2Line]
  cases hd : (Robot.drive sinF envA distanceBefore speed 20 1 fuel).2 with
  | none => exact onlyDrive_drive sinF envA distanceBefore speed 20 1 fuel
  | some t1 =>
    cases hw : ((if useRightSensor then r.rightSensor else r.leftSensor).waitForLine
        (if useRightSensor then envB.rightLight else envB.leftLight) 0 fuel) with
    | none =>
      exact onlyDrive_append (onlyDrive_drive sinF envA distanceBefore speed 20 1 fuel)
        (onlyDrive_moveSteering 0 (0.5 * speed))
    | some t2 =>
      exact onlyDrive_append
        (onlyDrive_append
          (onlyDrive_append (onlyDrive_drive sinF envA distanceBefore speed 20 1 fuel)
            (onlyDrive_moveSteering 0 (0.5 * speed)))
          (onlyDrive_stop .hold))
        (onlyDrive_drive sinF envC distanceAfter speed 20 1 fuel)

/-- C9: every motion operation of the Robot — calibrate, moveSteering,
drive, turn, lineFollow2Line, lineFollow4Time, turn2Line, drive2Line and
stop — commands only the left and right drive motors: no command in any of
their traces runs, stops or angle-resets the front or rear motor, so those
motors' state is unchanged across every call. -/
theorem motion_ops_only_drive_motors (r : Robot) (env envA envB envC : Env)
    (sinF : ℚ → ℚ) (steering speed distance dBefore dAfter kSteering : ℚ) (angle : ℤ)
    (time fuel : ℕ) (rightSide useRightSensor : Bool) (bt : Brake) :
    onlyDrive (Robot.calibrate env fuel).1 ∧
    onlyDrive (Robot.moveSteering steering speed) ∧
    onlyDrive (Robot.drive sinF env distance speed time kSteering fuel).1 ∧
    onlyDrive (Robot.turn env angle speed time fuel).1 ∧
    onlyDrive (Robot.lineFollow2Line r env speed rightSide useRightSensor fuel).1 ∧
    onlyDrive (Robot.lineFollow4Time r env speed time rightSide useRightSensor fuel).1 ∧
    onlyDrive (Robot.turn2Line r env speed useRightSensor time fuel).1 ∧
    onlyDrive (Robot.drive2Line r envA envB envC sinF speed dBefore dAfter useRightSensor fuel) ∧
    onlyDrive (Robot.stop bt) :=
  ⟨onlyDrive_calibrate env fuel,
   onlyDrive_moveSteering steering speed,
   onlyDrive_drive sinF env distance speed time kSteering fuel,
   onlyDrive_turn env angle speed time fuel,
   onlyDrive_lineFollow2Line r env speed rightSide useRightSensor fuel,
   onlyDrive_lineFollow4Time r env speed time rightSide useRightSensor fuel,
   onlyDrive_turn2Line r env speed useRightSensor time fuel,
   onlyDrive_drive2Line r envA envB envC sinF speed dBefore dAfter useRightSensor fuel,
   onlyDrive_stop bt⟩

end FLL
